import Mathlib

/-!
Shallow embedding of the WiFi settings panel's NetworkManager client
(`src/wifi/dbus.rs`, `src/wifi/mod.rs`).

The daemon side of the D-Bus protocol is modelled explicitly: every remote
property read is a value of type `Option α` (`none` is a failed read, the
`zbus::Result` error case), and the collection of remote access-point objects
is a function from object paths to `Option NMAccessPoint` (`none` is a failed
proxy build for that path).  All functions below are pure translations of the
corresponding Rust functions, with the same names where Lean allows them.
-/

namespace Settings

/-- UTF-8 decoding of a byte list, mirroring Rust's `String::from_utf8`
validation: rejects stray continuation bytes, overlong encodings, surrogate
code points and values above `0x10FFFF`.  Returns the decoded characters. -/
def utf8DecodeChars (bs : List Nat) : Option (List Char) :=
  match bs with
  | [] => some []
  | b :: rest =>
    if b < 0x80 then
      (utf8DecodeChars rest).map (Char.ofNat b :: ·)
    else if b < 0xC2 then
      none
    else if b < 0xE0 then
      match rest with
      | b1 :: rest2 =>
        if 0x80 ≤ b1 ∧ b1 < 0xC0 then
          (utf8DecodeChars rest2).map (Char.ofNat ((b - 0xC2 + 2) * 0x40 + (b1 - 0x80)) :: ·)
        else none
      | [] => none
    else if b < 0xF0 then
      match rest with
      | b1 :: b2 :: rest3 =>
        let lo1 := if b = 0xE0 then 0xA0 else 0x80
        let hi1 := if b = 0xED then 0x9F else 0xBF
        if lo1 ≤ b1 ∧ b1 ≤ hi1 ∧ 0x80 ≤ b2 ∧ b2 < 0xC0 then
          (utf8DecodeChars rest3).map
            (Char.ofNat ((b - 0xE0) * 0x1000 + (b1 - 0x80) * 0x40 + (b2 - 0x80)) :: ·)
        else none
      | _ => none
    else if b < 0xF5 then
      match rest with
      | b1 :: b2 :: b3 :: rest4 =>
        let lo1 := if b = 0xF0 then 0x90 else 0x80
        let hi1 := if b = 0xF4 then 0x8F else 0xBF
        if lo1 ≤ b1 ∧ b1 ≤ hi1 ∧ 0x80 ≤ b2 ∧ b2 < 0xC0 ∧ 0x80 ≤ b3 ∧ b3 < 0xC0 then
          (utf8DecodeChars rest4).map
            (Char.ofNat
              ((b - 0xF0) * 0x40000 + (b1 - 0x80) * 0x1000 + (b2 - 0x80) * 0x40 + (b3 - 0x80)) :: ·)
        else none
      | _ => none
    else none

/-- Decoding SSID bytes to a string, as `String::from_utf8(ssid_bytes)`. -/
def utf8Decode (bs : List Nat) : Option String :=
  (utf8DecodeChars bs).map fun cs => { data := cs }

/-- The 802.11 access point flags enum from `dbus.rs` (`APFlags`). -/
inductive APFlags
  | none
  | privacy
  | wps
  | wpsPbc
  | wpsPin
deriving DecidableEq, Repr

/-- Deserialization of a raw u32 flags value into `APFlags`, as performed by
the derived `OwnedValue` conversion: an exact discriminant match, with every
other raw value (including combined bitset values) a deserialization error. -/
def APFlags.fromRaw (raw : Nat) : Option APFlags :=
  if raw = 0 then some .none
  else if raw = 1 then some .privacy
  else if raw = 2 then some .wps
  else if raw = 4 then some .wpsPbc
  else if raw = 8 then some .wpsPin
  else Option.none

/-- The remote NetworkManager access-point object: the outcome of each of the
five property reads issued by `AccessPoint::from_nm_ap` (`none` = read error). -/
structure NMAccessPoint where
  ssid : Option (List Nat)
  rawFlags : Option Nat
  strength : Option Nat
  frequency : Option Nat
  hwAddress : Option String
deriving DecidableEq, Repr

/-- The collection of remote access-point objects, indexed by object path;
`none` models a failed proxy build for that path. -/
abbrev APWorld : Type := String → Option NMAccessPoint

/-- The resulting `AccessPoint` value (`dbus.rs`, struct `AccessPoint`). -/
structure AccessPoint where
  bssid : String
  ssid : String
  strength : Nat
  «private» : Bool
  frequency : Nat
  connected : Bool
  path : String
deriving DecidableEq, Repr

/-- Translation of `AccessPoint::from_nm_ap`: build the proxy at `path`, read
the SSID bytes and decode them (decode failure is `zbus::Error::InvalidField`),
read and deserialize the flags, read strength, frequency and hardware address;
any failure rejects the whole access point.  `connected` is true iff the
hardware address equals the active BSSID. -/
def from_nm_ap (world : APWorld) (path : String) (active_bssid : Option String) :
    Option AccessPoint :=
  (world path).bind fun ap =>
  ap.ssid.bind fun ssid_bytes =>
  (utf8Decode ssid_bytes).bind fun ssid =>
  ap.rawFlags.bind fun raw =>
  (APFlags.fromRaw raw).bind fun flags =>
  ap.strength.bind fun strength =>
  ap.frequency.bind fun frequency =>
  ap.hwAddress.bind fun bssid =>
  some { ssid, strength, «private» := decide (flags ≠ APFlags.none), frequency, bssid,
         connected := active_bssid.elim false fun active => bssid == active,
         path }

/-- Boolean comparison, as Rust `bool::cmp` (`false < true`). -/
def boolCmp (a b : Bool) : Ordering :=
  if a = b then .eq else if b then .lt else .gt

/-- Natural number comparison, as Rust `u8::cmp`. -/
def natCmp (a b : Nat) : Ordering :=
  if a < b then .lt else if a = b then .eq else .gt

/-- The comparator passed to `sort_unstable_by` in `access_points`:
`b.connected.cmp(&a.connected)`, then `b.strength.cmp(&a.strength)` on ties. -/
def apCmp (a b : AccessPoint) : Ordering :=
  match boolCmp b.connected a.connected with
  | .eq => natCmp b.strength a.strength
  | ordering => ordering

/-- The "less or equal" relation induced by `apCmp` (comparator not `gt`). -/
def apLE (a b : AccessPoint) : Prop := apCmp a b ≠ Ordering.gt

instance : DecidableRel apLE := fun a b =>
  inferInstanceAs (Decidable (apCmp a b ≠ Ordering.gt))

/-- The state of the wireless device object: the outcomes of the active-AP
property read and of the AP-list property read. -/
structure WirelessDeviceState where
  activeAccessPoint : Option String
  accessPoints : Option (List String)
deriving DecidableEq, Repr

/-- The BSSID of the currently active access point, as computed at the top of
`access_points`: the active-AP property read, with the length-1 fallback path
`/` filtered out, resolved through `from_nm_ap` and discarded on error. -/
def active_bssid (world : APWorld) (device : WirelessDeviceState) : Option String :=
  let active_ap : Option AccessPoint :=
    match device.activeAccessPoint with
    | some path => if path.length ≠ 1 then from_nm_ap world path none else none
    | none => none
  active_ap.map fun ap => ap.bssid

/-- Translation of `access_points`: with no wireless device the result is the
empty list; otherwise resolve the active BSSID, read the AP path list (a read
failure fails the whole query), build each AP and silently drop failures, and
sort with `apCmp` (modelled by insertion sort, a sorted permutation exactly as
`sort_unstable_by` guarantees). -/
def access_points (world : APWorld) (device : Option WirelessDeviceState) :
    Option (List AccessPoint) :=
  match device with
  | none => some []
  | some device =>
    device.accessPoints.map fun aps =>
      List.insertionSort apLE
        (aps.filterMap fun path => from_nm_ap world path (active_bssid world device))

/-- A D-Bus variant value, as far as this client produces or consumes them:
strings, byte arrays, and arrays of values. -/
inductive NMValue
  | str (s : String)
  | bytes (bs : List Nat)
  | arr (vs : List NMValue)
deriving Repr

/-- A settings sub-mapping: key/value pairs (a `HashMap<&str, Value>`). -/
abbrev NMSettings : Type := List (String × NMValue)

/-- A two-level settings mapping (`HashMap<&str, HashMap<&str, Value>>`). -/
abbrev NMSettingsMap : Type := List (String × NMSettings)

/-- UTF-8 encoding of one character (standard, as Rust strings store them). -/
def utf8EncodeChar (c : Char) : List Nat :=
  let n := c.toNat
  if n < 0x80 then [n]
  else if n < 0x800 then [0xC0 + n / 0x40, 0x80 + n % 0x40]
  else if n < 0x10000 then [0xE0 + n / 0x1000, 0x80 + n / 0x40 % 0x40, 0x80 + n % 0x40]
  else [0xF0 + n / 0x40000, 0x80 + n / 0x1000 % 0x40, 0x80 + n / 0x40 % 0x40, 0x80 + n % 0x40]

/-- The UTF-8 bytes of a string. -/
def utf8Encode (s : String) : List Nat :=
  s.data.flatMap utf8EncodeChar

/-- A natural number as four little-endian bytes (u32 wire encoding). -/
def u32le (n : Nat) : List Nat :=
  [n % 0x100, n / 0x100 % 0x100, n / 0x10000 % 0x100, n / 0x1000000 % 0x100]

/-- The bytes produced by `zvariant::to_bytes(context, &access_point.ssid)` in
`connect`: the D-Bus wire serialization of a string at offset 0, which is a
little-endian u32 byte length, the UTF-8 bytes, and a trailing NUL byte. -/
def dbus_serialized_string (s : String) : List Nat :=
  u32le (utf8Encode s).length ++ utf8Encode s ++ [0]

/-- The `wifi_settings` sub-mapping built inside `connect`
(`mode = "infrastructure"`, `ssid = <serialized bytes>`).  In the source this
map is constructed but never inserted into the submitted `settings` mapping. -/
def wifi_settings (access_point : AccessPoint) : NMSettings :=
  [("mode", NMValue.str "infrastructure"),
   ("ssid", NMValue.bytes (dbus_serialized_string access_point.ssid))]

/-- The security sub-mapping built inside `connect` when a password is given. -/
def security_settings (password : String) : NMSettings :=
  [("auth-alg", NMValue.str "open"),
   ("psk", NMValue.str password),
   ("key-mgmt", NMValue.str "wpa-psk")]

/-- The `settings` mapping that `connect` submits to
`add_and_activate_connection`: the `connection` sub-mapping (`id`, `type`),
plus the security sub-mapping exactly when a password is present.  The
`wifi_settings` map is built in the source but never inserted, so it does not
appear here. -/
def connect_settings (access_point : AccessPoint) (password : Option String) :
    NMSettingsMap :=
  let connection_settings : NMSettings :=
    [("id", NMValue.str access_point.ssid),
     ("type", NMValue.str "802-11-wireless")]
  let settings : NMSettingsMap := [("connection", connection_settings)]
  match password with
  | some password => settings ++ [("802-11-wireless-security", security_settings password)]
  | none => settings

/-- The daemon state consulted by `disconnect`: the active-connections
property read, the per-connection proxy-build-plus-id read, and whether a
`deactivate_connection` call on a given path succeeds. -/
structure NMState where
  activeConnections : Option (List String)
  idOf : String → Option String
  deactivateOk : String → Bool

/-- The loop body of `disconnect`: walk the active connection paths in order;
a failed proxy build or id read propagates as an error; on the first id equal
to `ssid`, deactivate that connection and stop.  Returns the list of
deactivation calls issued and whether the function returned `Ok`. -/
def disconnectLoop (st : NMState) (ssid : String) : List String → List String × Bool
  | [] => ([], true)
  | path :: rest =>
    match st.idOf path with
    | none => ([], false)
    | some id =>
      if id = ssid then ([path], st.deactivateOk path)
      else disconnectLoop st ssid rest

/-- Translation of `disconnect`: read the active connections (a failed read is
an error with no deactivation), then run the matching loop. -/
def disconnect (st : NMState) (ssid : String) : List String × Bool :=
  match st.activeConnections with
  | none => ([], false)
  | some paths => disconnectLoop st ssid paths

/-- Translation of `wifi_bssids`: fetch the profile's settings mapping, look
up the `802-11-wireless` sub-mapping and its `seen-bssids` entry (any failure
or absence yields `none`), require an array value, and keep its string
elements. -/
def wifi_bssids (get_settings : String → Option NMSettingsMap) (profile_path : String) :
    Option (List String) :=
  (get_settings profile_path).bind fun settings =>
  (settings.lookup "802-11-wireless").bind fun wifi =>
  (wifi.lookup "seen-bssids").bind fun bssids_setting =>
  match bssids_setting with
  | NMValue.arr values =>
    some (values.filterMap fun value =>
      match value with
      | NMValue.str bssid => some bssid
      | _ => none)
  | _ => none

/-- One `HashMap::insert`: replace the binding if the key is present,
otherwise append a fresh binding. -/
def mapInsert (m : List (String × String)) (k v : String) : List (String × String) :=
  if m.any fun e => e.1 = k then
    m.map fun e => if e.1 = k then (k, v) else e
  else m ++ [(k, v)]

/-- The inner loop of `wifi_profiles`: insert every BSSID of one profile,
mapped to that profile's path. -/
def insert_bssids (profiles : List (String × String)) (profile_path : String)
    (bssids : List String) : List (String × String) :=
  bssids.foldl (fun profiles bssid => mapInsert profiles bssid profile_path) profiles

/-- The outer loop of `wifi_profiles`: process each saved profile in
enumeration order (`unwrap_or_default`: a failed BSSID extraction contributes
no insertions). -/
def insert_profiles (get_settings : String → Option NMSettingsMap)
    (profiles : List (String × String)) (network_profiles : List String) :
    List (String × String) :=
  network_profiles.foldl
    (fun profiles profile_path =>
      insert_bssids profiles profile_path
        ((wifi_bssids get_settings profile_path).getD []))
    profiles

/-- Translation of `wifi_profiles`: list the saved profiles (a failed read is
an error), and for each profile insert every BSSID from `wifi_bssids` mapped
to that profile's path, later inserts overwriting earlier ones. -/
def wifi_profiles (profile_list : Option (List String))
    (get_settings : String → Option NMSettingsMap) :
    Option (List (String × String)) :=
  profile_list.map fun network_profiles =>
    insert_profiles get_settings [] network_profiles

/-- The operation dispatched by the WiFi dialog's confirm button. -/
inductive WifiOperation
  | disconnectOp (ssid : String)
  | reconnectOp (ap : AccessPoint) (profile : String)
  | connectOp (ap : AccessPoint) (password : Option String)
deriving DecidableEq, Repr

/-- Translation of `WiFiDialog::new`'s password gating: a password entry is
shown iff the AP is not connected, is private, and has no saved profile. -/
def requires_password (access_point : AccessPoint) (profile : Option String) : Bool :=
  !access_point.connected && access_point.«private» && !profile.isSome

/-- Translation of the confirm-button handler in `WiFiDialog::new`: the
password is the entry's text when the entry exists, otherwise `none`; then
connected APs are disconnected, APs with a saved profile are reconnected, and
the rest get a fresh connection. -/
def confirm_operation (access_point : AccessPoint) (profile : Option String)
    (entered_text : String) : WifiOperation :=
  let password : Option String :=
    if requires_password access_point profile then some entered_text else none
  if access_point.connected then .disconnectOp access_point.ssid
  else
    match profile with
    | some profile => .reconnectOp access_point profile
    | none => .connectOp access_point password

/-- The decision rule exactly as the claim states it: connected APs are
disconnected; otherwise a saved profile is reactivated; otherwise a fresh
connection is made, with a password iff the AP is private and unknown. -/
def spec_confirm_operation (access_point : AccessPoint) (profile : Option String)
    (entered_text : String) : WifiOperation :=
  if access_point.connected then .disconnectOp access_point.ssid
  else
    match profile with
    | some profile => .reconnectOp access_point profile
    | none =>
      .connectOp access_point
        (if access_point.«private» then some entered_text else none)

/-- The radio on/off switch: its displayed state, and whether its state-set
signal handler is currently blocked. -/
structure RadioToggle where
  active : Bool
  handlerBlocked : Bool
deriving DecidableEq, Repr

/-- A programmatic `set_active` write on the switch, modelling the GTK signal
semantics used by `WiFi::new`: the write emits the state-set signal, which
invokes the connected handler (a `dbus::set_enabled` dispatcher call with the
new state) unless that handler is blocked.  Returns the updated switch and the
dispatcher calls made during the write. -/
def set_active (toggle : RadioToggle) (state : Bool) : RadioToggle × List Bool :=
  ({ toggle with active := state },
   if toggle.handlerBlocked then [] else [state])

/-- GTK `block_signal` on the switch's state-set handler. -/
def block_signal (toggle : RadioToggle) : RadioToggle :=
  { toggle with handlerBlocked := true }

/-- GTK `unblock_signal` on the switch's state-set handler. -/
def unblock_signal (toggle : RadioToggle) : RadioToggle :=
  { toggle with handlerBlocked := false }

/-- Translation of the synchronization loop's reaction to an externally
observed radio-enabled change (`WiFi::new`): block the switch's handler, write
the new state, unblock the handler.  Returns the updated switch and the
dispatcher calls made by the write. -/
def apply_external_radio_state (toggle : RadioToggle) (state : Bool) :
    RadioToggle × List Bool :=
  let blocked := block_signal toggle
  let written := set_active blocked state
  (unblock_signal written.1, written.2)

/-- Modelled from the spec: the band classification of an access point's
frequency.  No classification code exists under `src/` (the stored `frequency`
field is otherwise unused there); the spec defines the band as "5GHz" for
frequencies above 5000 MHz and "2.4GHz" otherwise. -/
def band (frequency : Nat) : String :=
  if frequency > 5000 then "5GHz" else "2.4GHz"

/-- Characterization of a successful `from_nm_ap` build: every attribute read
succeeded, the SSID bytes decoded, the flags deserialized, and the resulting
fields are exactly the read values. -/
theorem from_nm_ap_eq_some {world : APWorld} {path : String} {act : Option String}
    {a : AccessPoint} (h : from_nm_ap world path act = some a) :
    ∃ ap ssid_bytes ssid raw flags,
      world path = some ap ∧ ap.ssid = some ssid_bytes ∧
      utf8Decode ssid_bytes = some ssid ∧
      ap.rawFlags = some raw ∧ APFlags.fromRaw raw = some flags ∧
      ap.strength = some a.strength ∧ ap.frequency = some a.frequency ∧
      ap.hwAddress = some a.bssid ∧
      a.ssid = ssid ∧ a.«private» = decide (flags ≠ APFlags.none) ∧ a.path = path ∧
      a.connected = act.elim false fun active => a.bssid == active := by
  simp only [from_nm_ap, Option.bind_eq_some] at h
  obtain ⟨ap, hap, sb, hsb, ssid, hss, raw, hraw, flags, hfl, st, hst, fr, hfr, bs, hbs, heq⟩ := h
  cases Option.some.inj heq
  exact ⟨ap, sb, ssid, raw, flags, hap, hsb, hss, hraw, hfl, hst, hfr, hbs, rfl, rfl, rfl, rfl⟩

/-- A built access point marked connected pins down the active BSSID: it must
have been `some` and equal to the AP's hardware address. -/
theorem from_nm_ap_connected {world : APWorld} {path : String} {act : Option String}
    {a : AccessPoint} (h : from_nm_ap world path act = some a)
    (hc : a.connected = true) : act = some a.bssid := by
  obtain ⟨_, _, _, _, _, _, _, _, _, _, _, _, _, _, _, _, hconn⟩ := from_nm_ap_eq_some h
  rw [hconn] at hc
  cases act with
  | none => simp at hc
  | some s =>
    simp only [Option.elim_some] at hc
    exact congrArg some (eq_of_beq hc).symm

/-- The fabricated remote access-point object of the round-trip claim:
`ssid = "Home"` (bytes), `strength = 73`, `frequency = 2437`,
`flags = Privacy`. -/
def fabricated_ap : NMAccessPoint :=
  { ssid := some [72, 111, 109, 101], rawFlags := some 1, strength := some 73,
    frequency := some 2437, hwAddress := some "AA:BB:CC:DD:EE:FF" }

/-- A world holding only the fabricated access point. -/
def fabricated_world : APWorld := fun path =>
  if path = "/org/freedesktop/NetworkManager/AccessPoint/1" then some fabricated_ap
  else none

/-- C3: building an `AccessPoint` from a fabricated remote object with
`ssid = "Home"`, `strength = 73`, `frequency = 2437`, `flags = Privacy`
succeeds and yields ssid `"Home"`, strength `73`, private `true`, and band
`"2.4GHz"` (band per the spec's classification of the stored frequency). -/
theorem fabricated_round_trip :
    (from_nm_ap fabricated_world "/org/freedesktop/NetworkManager/AccessPoint/1"
        none).map (fun a => (a.ssid, a.strength, a.«private», band a.frequency)) =
      some ("Home", 73, true, "2.4GHz") := by
  decide

/-- C5: the confirm action of the dialog dispatches exactly the operation the
claim's decision rule picks: disconnect when connected, reconnect when a
saved profile exists, otherwise connect with a password iff the AP is private
and unknown. -/
theorem confirm_operation_matches_claim (access_point : AccessPoint)
    (profile : Option String) (entered_text : String) :
    confirm_operation access_point profile entered_text =
      spec_confirm_operation access_point profile entered_text := by
  unfold confirm_operation spec_confirm_operation requires_password
  cases hc : access_point.connected <;> cases profile <;>
    cases hp : access_point.«private» <;> simp [hc, hp]

/-- C10: writing the radio toggle because of an externally observed change
makes zero dispatcher calls (the state-set handler is blocked for that single
write), while the displayed state is updated and the handler ends unblocked. -/
theorem external_radio_write_suppresses_handler (toggle : RadioToggle) (state : Bool) :
    (apply_external_radio_state toggle state).2 = [] ∧
    (apply_external_radio_state toggle state).1.active = state ∧
    (apply_external_radio_state toggle state).1.handlerBlocked = false := by
  simp [apply_external_radio_state, block_signal, unblock_signal, set_active]

/-- A concrete `AccessPoint` value for exercising `connect`. -/
def home_ap : AccessPoint :=
  { bssid := "AA:BB:CC:DD:EE:FF", ssid := "Home", strength := 73, «private» := true,
    frequency := 2437, connected := false,
    path := "/org/freedesktop/NetworkManager/AccessPoint/1" }

/-- C2 (code bug): the profile description `connect` submits contains no
`802-11-wireless` sub-mapping at all — the `wifi_settings` map carrying
`mode`/`ssid` is built in the source but never inserted — while the security
sub-mapping is present exactly when a password is given.  Moreover the `ssid`
bytes the source computes for that dead map are the D-Bus serialization of the
string (length prefix and trailing NUL), not the raw SSID bytes. -/
theorem connect_never_includes_wifi_settings :
    (connect_settings home_ap (some "secret")).lookup "802-11-wireless" = none ∧
    (connect_settings home_ap none).lookup "802-11-wireless" = none ∧
    (connect_settings home_ap (some "secret")).lookup "802-11-wireless-security" =
      some [("auth-alg", NMValue.str "open"), ("psk", NMValue.str "secret"),
            ("key-mgmt", NMValue.str "wpa-psk")] ∧
    (connect_settings home_ap none).lookup "802-11-wireless-security" = none ∧
    (connect_settings home_ap (some "secret")).lookup "connection" =
      some [("id", NMValue.str "Home"), ("type", NMValue.str "802-11-wireless")] ∧
    wifi_settings home_ap =
      [("mode", NMValue.str "infrastructure"),
       ("ssid", NMValue.bytes [4, 0, 0, 0, 72, 111, 109, 101, 0])] :=
  ⟨rfl, rfl, rfl, rfl, rfl, rfl⟩

/-- A successfully deserialized flags value is the `None` variant exactly when
the raw value was zero. -/
theorem APFlags.fromRaw_none_iff {raw : Nat} {flags : APFlags}
    (h : APFlags.fromRaw raw = some flags) : flags = APFlags.none ↔ raw = 0 := by
  unfold APFlags.fromRaw at h
  split_ifs at h with h0 h1 h2 h4 h8
  · cases Option.some.inj h; exact ⟨fun _ => h0, fun _ => rfl⟩
  · cases Option.some.inj h; exact ⟨fun hx => APFlags.noConfusion hx, fun hx => absurd hx h0⟩
  · cases Option.some.inj h; exact ⟨fun hx => APFlags.noConfusion hx, fun hx => absurd hx h0⟩
  · cases Option.some.inj h; exact ⟨fun hx => APFlags.noConfusion hx, fun hx => absurd hx h0⟩
  · cases Option.some.inj h; exact ⟨fun hx => APFlags.noConfusion hx, fun hx => absurd hx h0⟩

/-- C4 (amended): for every access point the build produces, `private` is true
iff the raw flags value is nonzero; and a raw flags value outside the exact
variant set (such as a combined bitset value) fails deserialization, so the
whole access point is rejected rather than marked private. -/
theorem private_iff_raw_flags_nonzero
    (world : APWorld) (path : String) (act : Option String)
    (ap : NMAccessPoint) (raw : Nat)
    (hap : world path = some ap) (hraw : ap.rawFlags = some raw) :
    (∀ a, from_nm_ap world path act = some a → (a.«private» = true ↔ raw ≠ 0)) ∧
    (APFlags.fromRaw raw = none → from_nm_ap world path act = none) := by
  constructor
  · intro a ha
    obtain ⟨ap', _, _, raw', flags, hap', _, _, hraw', hfl, _, _, _, _, hpriv, _, _⟩ :=
      from_nm_ap_eq_some ha
    rw [hap] at hap'
    cases Option.some.inj hap'
    rw [hraw] at hraw'
    cases Option.some.inj hraw'
    rw [hpriv]
    simp only [decide_eq_true_eq]
    exact not_congr (APFlags.fromRaw_none_iff hfl)
  · intro hfr
    rcases hs : ap.ssid with _ | bytes
    · simp [from_nm_ap, hap, hs]
    · rcases hd : utf8Decode bytes with _ | ssid
      · simp [from_nm_ap, hap, hs, hd]
      · simp [from_nm_ap, hap, hs, hd, hraw, hfr]

/-- Witness for C4's amended theorem, at the fabricated AP with raw flags 1. -/
theorem private_iff_raw_flags_nonzero_witness :
    (∀ a, from_nm_ap fabricated_world "/org/freedesktop/NetworkManager/AccessPoint/1"
        none = some a → (a.«private» = true ↔ (1 : Nat) ≠ 0)) ∧
    (APFlags.fromRaw 1 = none →
      from_nm_ap fabricated_world "/org/freedesktop/NetworkManager/AccessPoint/1"
        none = none) :=
  private_iff_raw_flags_nonzero fabricated_world
    "/org/freedesktop/NetworkManager/AccessPoint/1" none fabricated_ap 1 rfl rfl

/-- A remote access point reporting the combined flags value `3`
(Privacy ∪ WPS), all other attributes valid. -/
def flags3_ap : NMAccessPoint :=
  { ssid := some [78, 101, 116], rawFlags := some 3, strength := some 50,
    frequency := some 2412, hwAddress := some "11:22:33:44:55:66" }

/-- A world holding only the combined-flags access point. -/
def flags3_world : APWorld := fun path =>
  if path = "/ap/3" then some flags3_ap else none

/-- Counterexample to C4 as stated: the nonzero (combined-bitset) raw flags
value 3 does not yield an access point with `private = true` — the flags
deserialization admits only the exact variant values 0, 1, 2, 4, 8, so the
build fails and the snapshot drops the AP entirely. -/
theorem combined_flags_reject_ap :
    (3 : Nat) ≠ 0 ∧ flags3_ap.rawFlags = some 3 ∧
    from_nm_ap flags3_world "/ap/3" none = none ∧
    access_points flags3_world
      (some { activeAccessPoint := none, accessPoints := some ["/ap/3"] }) =
      some [] := by
  refine ⟨by decide, rfl, by decide, by decide⟩

/-- C6: when the active-AP property read fails or returns the length-1
sentinel path `/`, the snapshot query still succeeds (given the AP-list read
succeeds) and every access point in it has `connected = false`. -/
theorem snapshot_survives_active_failure
    (world : APWorld) (device : WirelessDeviceState) (aps : List String)
    (hact : device.activeAccessPoint = none ∨
        ∃ p, device.activeAccessPoint = some p ∧ p.length = 1)
    (haps : device.accessPoints = some aps) :
    ∃ result, access_points world (some device) = some result ∧
      ∀ a ∈ result, a.connected = false := by
  have hab : active_bssid world device = none := by
    unfold active_bssid
    rcases hact with h | ⟨p, hp, hl⟩
    · simp [h]
    · simp [hp, hl]
  refine ⟨List.insertionSort apLE (aps.filterMap fun p => from_nm_ap world p none),
    ?_, ?_⟩
  · simp [access_points, haps, hab]
  · intro a ha
    have ha' := (List.perm_insertionSort apLE _).mem_iff.mp ha
    obtain ⟨p, _, hfp⟩ := List.mem_filterMap.mp ha'
    obtain ⟨_, _, _, _, _, _, _, _, _, _, _, _, _, _, _, _, hconn⟩ :=
      from_nm_ap_eq_some hfp
    simpa using hconn

/-- The wireless device state reporting the sentinel `/` as active AP. -/
def sentinel_device : WirelessDeviceState :=
  { activeAccessPoint := some "/",
    accessPoints := some ["/org/freedesktop/NetworkManager/AccessPoint/1"] }

/-- Witness for C6, at the sentinel-path device over the fabricated world. -/
theorem snapshot_survives_active_failure_witness :
    ∃ result, access_points fabricated_world (some sentinel_device) = some result ∧
      ∀ a ∈ result, a.connected = false :=
  snapshot_survives_active_failure fabricated_world sentinel_device
    ["/org/freedesktop/NetworkManager/AccessPoint/1"]
    (Or.inr ⟨"/", rfl, rfl⟩) rfl

/-- C7: building one access point is all-or-nothing — any failed attribute
read, or an SSID byte sequence that is not valid text, rejects the whole AP —
and a rejected AP is silently dropped by the snapshot query: the query result
is the same as if the daemon had not listed that path, with no error. -/
theorem build_all_or_nothing :
    (∀ (world : APWorld) (path : String) (act : Option String) (ap : NMAccessPoint),
        world path = some ap →
        (ap.ssid = none ∨ (∃ bytes, ap.ssid = some bytes ∧ utf8Decode bytes = none) ∨
         ap.rawFlags = none ∨ ap.strength = none ∨ ap.frequency = none ∨
         ap.hwAddress = none) →
        from_nm_ap world path act = none) ∧
    (∀ (world : APWorld) (device : WirelessDeviceState) (l₁ l₂ : List String)
        (p : String),
        device.accessPoints = some (l₁ ++ p :: l₂) →
        from_nm_ap world p (active_bssid world device) = none →
        access_points world (some device) =
          access_points world
            (some { device with accessPoints := some (l₁ ++ l₂) })) := by
  constructor
  · intro world path act ap hap hfail
    cases hres : from_nm_ap world path act with
    | none => rfl
    | some a =>
      exfalso
      obtain ⟨ap', bytes', ssid', raw', flags', hap', hsb, hdec, hraw, hfl, hst, hfr,
        hbs, _⟩ := from_nm_ap_eq_some hres
      rw [hap] at hap'
      cases Option.some.inj hap'
      rcases hfail with h | ⟨bytes, hb, hd⟩ | h | h | h | h <;> simp_all
  · intro world device l₁ l₂ p haps hfp
    have hdev : active_bssid world { device with accessPoints := some (l₁ ++ l₂) } =
        active_bssid world device := rfl
    have key : List.filterMap
        (fun path => from_nm_ap world path (active_bssid world device))
        (l₁ ++ p :: l₂) =
        List.filterMap
          (fun path => from_nm_ap world path (active_bssid world device))
          (l₁ ++ l₂) := by
      rw [List.filterMap_append, List.filterMap_append,
        List.filterMap_cons_none
          (f := fun path => from_nm_ap world path (active_bssid world device)) hfp]
    simp [access_points, haps, hdev, key]

/-- A remote access point whose SSID property read fails. -/
def broken_ap : NMAccessPoint :=
  { ssid := none, rawFlags := some 1, strength := some 50, frequency := some 2412,
    hwAddress := some "22:33:44:55:66:77" }

/-- A world holding the broken access point and the fabricated one. -/
def broken_world : APWorld := fun path =>
  if path = "/ap/broken" then some broken_ap else fabricated_world path

/-- The wireless device state listing the broken AP and the fabricated one. -/
def broken_device : WirelessDeviceState :=
  { activeAccessPoint := none,
    accessPoints := some ["/ap/broken", "/org/freedesktop/NetworkManager/AccessPoint/1"] }

/-- Witness for C7, at an AP whose SSID read fails, listed by a device. -/
theorem build_all_or_nothing_witness :
    from_nm_ap broken_world "/ap/broken" none = none ∧
    access_points broken_world (some broken_device) =
      access_points broken_world
        (some { broken_device with
                  accessPoints :=
                    some ["/org/freedesktop/NetworkManager/AccessPoint/1"] }) :=
  ⟨build_all_or_nothing.1 broken_world "/ap/broken" none broken_ap rfl (Or.inl rfl),
   build_all_or_nothing.2 broken_world broken_device []
     ["/org/freedesktop/NetworkManager/AccessPoint/1"] "/ap/broken" rfl (by decide)⟩

/-- The disconnect loop returns success with no deactivation when every
listed connection resolves to an id different from the target SSID. -/
theorem disconnectLoop_no_match (st : NMState) (ssid : String) (paths : List String)
    (h : ∀ p ∈ paths, ∃ id, st.idOf p = some id ∧ id ≠ ssid) :
    disconnectLoop st ssid paths = ([], true) := by
  induction paths with
  | nil => rfl
  | cons p rest ih =>
    obtain ⟨id, hid, hne⟩ := h p (List.mem_cons_self p rest)
    simp only [disconnectLoop, hid]
    rw [if_neg hne]
    exact ih fun q hq => h q (List.mem_cons_of_mem p hq)

/-- The disconnect loop deactivates exactly the first connection whose id
matches, when the earlier ones all resolve to different ids. -/
theorem disconnectLoop_first_match (st : NMState) (ssid : String)
    (l₁ l₂ : List String) (p : String)
    (hl₁ : ∀ q ∈ l₁, ∃ id, st.idOf q = some id ∧ id ≠ ssid)
    (hp : st.idOf p = some ssid) :
    (disconnectLoop st ssid (l₁ ++ p :: l₂)).1 = [p] := by
  induction l₁ with
  | nil =>
    simp [disconnectLoop, hp]
  | cons q l₁ ih =>
    obtain ⟨id, hid, hne⟩ := hl₁ q (List.mem_cons_self q l₁)
    simp only [List.cons_append, disconnectLoop, hid]
    rw [if_neg hne]
    exact ih fun r hr => hl₁ r (List.mem_cons_of_mem q hr)

/-- C8: when every active connection's id read succeeds and none equals the
target SSID, `disconnect` returns success and issues no deactivation call; and
when a first match exists, the deactivation call issued is exactly that
connection. -/
theorem disconnect_spec :
    (∀ (st : NMState) (ssid : String) (paths : List String),
        st.activeConnections = some paths →
        (∀ p ∈ paths, ∃ id, st.idOf p = some id ∧ id ≠ ssid) →
        disconnect st ssid = ([], true)) ∧
    (∀ (st : NMState) (ssid : String) (l₁ l₂ : List String) (p : String),
        st.activeConnections = some (l₁ ++ p :: l₂) →
        (∀ q ∈ l₁, ∃ id, st.idOf q = some id ∧ id ≠ ssid) →
        st.idOf p = some ssid →
        (disconnect st ssid).1 = [p]) := by
  constructor
  · intro st ssid paths hac h
    simp only [disconnect, hac]
    exact disconnectLoop_no_match st ssid paths h
  · intro st ssid l₁ l₂ p hac hl₁ hp
    simp only [disconnect, hac]
    exact disconnectLoop_first_match st ssid l₁ l₂ p hl₁ hp

/-- A daemon with two active connections, neither named `MySSID`. -/
def no_match_state : NMState :=
  { activeConnections := some ["/active/1", "/active/2"],
    idOf := fun path =>
      if path = "/active/1" then some "Other"
      else if path = "/active/2" then some "Eduroam"
      else none,
    deactivateOk := fun _ => true }

/-- A daemon with two active connections where the second is named `MySSID`. -/
def match_state : NMState :=
  { activeConnections := some ["/active/1", "/active/2"],
    idOf := fun path =>
      if path = "/active/1" then some "Other"
      else if path = "/active/2" then some "MySSID"
      else none,
    deactivateOk := fun _ => true }

/-- Witness for C8: `disconnect "MySSID"` is a successful no-op when nothing
matches, and deactivates exactly the matching connection when one does. -/
theorem disconnect_spec_witness :
    disconnect no_match_state "MySSID" = ([], true) ∧
    (disconnect match_state "MySSID").1 = ["/active/2"] := by
  constructor
  · refine disconnect_spec.1 no_match_state "MySSID" ["/active/1", "/active/2"] rfl ?_
    intro p hp
    rcases hp with _ | ⟨_, hp⟩
    · exact ⟨"Other", rfl, by decide⟩
    · rcases hp with _ | ⟨_, hp⟩
      · exact ⟨"Eduroam", rfl, by decide⟩
      · cases hp
  · refine disconnect_spec.2 match_state "MySSID" ["/active/1"] [] "/active/2" rfl ?_ rfl
    intro q hq
    rcases hq with _ | ⟨_, hq⟩
    · exact ⟨"Other", rfl, by decide⟩
    · cases hq

/-- The bindings of the profile index holding a given key. -/
def getEntry (m : List (String × String)) (k : String) : List (String × String) :=
  m.filter fun e => e.1 == k

/-- Replacing the value at one key leaves the key sequence unchanged. -/
theorem map_replace_keys (m : List (String × String)) (k v : String) :
    (m.map fun e => if e.1 = k then (k, v) else e).map Prod.fst = m.map Prod.fst := by
  induction m with
  | nil => rfl
  | cons e t ih => by_cases h : e.1 = k <;> simp [h, ih]

/-- A key absent from every binding has no entries. -/
theorem getEntry_eq_nil {m : List (String × String)} {β : String}
    (h : ∀ e ∈ m, e.1 ≠ β) : getEntry m β = [] := by
  simp only [getEntry, List.filter_eq_nil_iff, beq_iff_eq]
  exact h

/-- Replacing the value at key `k` leaves the entries of any other key as they
were. -/
theorem getEntry_map_replace_ne (m : List (String × String)) :
    ∀ (k v β : String), β ≠ k →
      getEntry (m.map fun e => if e.1 = k then (k, v) else e) β = getEntry m β := by
  induction m with
  | nil => intros; rfl
  | cons e t ih =>
    intro k v β hne
    have hkβ : ¬(k = β) := fun hh => hne hh.symm
    have ih' := ih k v β hne
    simp only [getEntry] at ih' ⊢
    by_cases h : e.1 = k
    · have heβ : ¬(e.1 = β) := by rw [h]; exact hkβ
      simp only [List.map_cons, if_pos h, List.filter_cons, beq_iff_eq]
      rw [if_neg hkβ, if_neg heβ]
      exact ih'
    · simp only [List.map_cons, if_neg h, List.filter_cons, beq_iff_eq]
      by_cases hc : e.1 = β
      · rw [if_pos hc, if_pos hc, ih']
      · rw [if_neg hc, if_neg hc]
        exact ih'

/-- Replacing the value at a key present exactly once leaves a single entry
with the new value. -/
theorem getEntry_map_replace_self (m : List (String × String)) :
    ∀ (k v : String), m.any (fun e => e.1 = k) = true → (m.map Prod.fst).Nodup →
      getEntry (m.map fun e => if e.1 = k then (k, v) else e) k = [(k, v)] := by
  induction m with
  | nil => intro k v hany _; simp at hany
  | cons e t ih =>
    intro k v hany hnd
    rw [List.map_cons] at hnd
    have hnd' := List.nodup_cons.mp hnd
    by_cases h : e.1 = k
    · have hknot : ∀ e₀ ∈ t, ¬(e₀.1 = k) := by
        intro e₀ he₀ hk
        exact hnd'.1 (by rw [h, ← hk]; exact List.mem_map_of_mem Prod.fst he₀)
      have htail : getEntry (t.map fun e₀ => if e₀.1 = k then (k, v) else e₀) k = [] := by
        apply getEntry_eq_nil
        intro x hx
        obtain ⟨e₀, he₀, rfl⟩ := List.mem_map.mp hx
        rw [if_neg (hknot e₀ he₀)]
        exact hknot e₀ he₀
      simp only [getEntry] at htail
      simp only [List.map_cons, if_pos h, getEntry, List.filter_cons, beq_iff_eq]
      simp [htail]
    · have hany' : t.any (fun e₀ => e₀.1 = k) = true := by
        simp only [List.any_cons, Bool.or_eq_true, decide_eq_true_eq] at hany
        rcases hany with hh | hh
        · exact absurd hh h
        · exact hh
      have ih' := ih k v hany' hnd'.2
      simp only [getEntry] at ih'
      simp only [List.map_cons, if_neg h, getEntry, List.filter_cons, beq_iff_eq]
      exact ih'

/-- `mapInsert` leaves the entries of any other key unchanged. -/
theorem getEntry_mapInsert_ne (m : List (String × String)) (k v β : String)
    (hne : β ≠ k) : getEntry (mapInsert m k v) β = getEntry m β := by
  have hkβ : ¬(k = β) := fun hh => hne hh.symm
  unfold mapInsert
  split
  · exact getEntry_map_replace_ne m k v β hne
  · show List.filter _ (m ++ [(k, v)]) = _
    rw [List.filter_append]
    simp [getEntry, hkβ]

/-- `mapInsert` keeps the key sequence duplicate-free. -/
theorem mapInsert_keys_nodup (m : List (String × String)) (k v : String)
    (hnd : (m.map Prod.fst).Nodup) : ((mapInsert m k v).map Prod.fst).Nodup := by
  unfold mapInsert
  split
  · rw [map_replace_keys]; exact hnd
  · rename_i hany
    simp only [List.any_eq_true, decide_eq_true_eq, not_exists, not_and] at hany
    rw [List.map_append]
    simp only [List.map_cons, List.map_nil, List.nodup_append]
    refine ⟨hnd, List.nodup_singleton k, ?_⟩
    intro x hx hk
    obtain ⟨e, he, rfl⟩ := List.mem_map.mp hx
    simp only [List.mem_singleton] at hk
    exact hany e he hk

/-- After `mapInsert m k v` over a duplicate-free map, the key `k` holds
exactly the binding `(k, v)`. -/
theorem getEntry_mapInsert_self (m : List (String × String)) (k v : String)
    (hnd : (m.map Prod.fst).Nodup) : getEntry (mapInsert m k v) k = [(k, v)] := by
  unfold mapInsert
  split
  · rename_i hany
    exact getEntry_map_replace_self m k v hany hnd
  · rename_i hany
    simp only [List.any_eq_true, decide_eq_true_eq, not_exists, not_and] at hany
    show List.filter _ (m ++ [(k, v)]) = _
    rw [List.filter_append]
    have : getEntry m k = [] := getEntry_eq_nil fun e he => hany e he
    simp only [getEntry] at this
    simp [this]

/-- `insert_bssids` keeps the key sequence duplicate-free. -/
theorem insert_bssids_nodup (ks : List String) :
    ∀ (m : List (String × String)) (path : String),
      (m.map Prod.fst).Nodup → ((insert_bssids m path ks).map Prod.fst).Nodup := by
  induction ks with
  | nil => intro m path h; exact h
  | cons k ks ih => intro m path h; exact ih (mapInsert m k path) path (mapInsert_keys_nodup m k path h)

/-- Inserting BSSIDs that do not include `β` leaves the entries of `β`
unchanged. -/
theorem getEntry_insert_bssids_not_mem (ks : List String) :
    ∀ (m : List (String × String)) (path β : String), β ∉ ks →
      getEntry (insert_bssids m path ks) β = getEntry m β := by
  induction ks with
  | nil => intros; rfl
  | cons k ks ih =>
    intro m path β hβ
    have h1 : β ≠ k := fun hh => hβ (hh ▸ List.mem_cons_self k ks)
    have h2 : β ∉ ks := fun hh => hβ (List.mem_cons_of_mem k hh)
    show getEntry (insert_bssids (mapInsert m k path) path ks) β = _
    rw [ih (mapInsert m k path) path β h2, getEntry_mapInsert_ne m k path β h1]

/-- Inserting BSSIDs that include `β`, all mapped to `path`, leaves exactly
the binding `(β, path)` at key `β`. -/
theorem getEntry_insert_bssids_mem (ks : List String) :
    ∀ (m : List (String × String)) (path β : String), β ∈ ks →
      (m.map Prod.fst).Nodup →
      getEntry (insert_bssids m path ks) β = [(β, path)] := by
  induction ks with
  | nil => intro _ _ _ h _; cases h
  | cons k ks ih =>
    intro m path β hβ hnd
    by_cases hks : β ∈ ks
    · exact ih (mapInsert m k path) path β hks (mapInsert_keys_nodup m k path hnd)
    · have hβk : β = k := by
        rcases List.mem_cons.mp hβ with h | h
        · exact h
        · exact absurd h hks
      subst hβk
      show getEntry (insert_bssids (mapInsert m β path) path ks) β = _
      rw [getEntry_insert_bssids_not_mem ks (mapInsert m β path) path β hks]
      exact getEntry_mapInsert_self m β path hnd

/-- `insert_profiles` keeps the key sequence duplicate-free. -/
theorem insert_profiles_nodup (get_settings : String → Option NMSettingsMap)
    (nps : List String) :
    ∀ m : List (String × String), (m.map Prod.fst).Nodup →
      ((insert_profiles get_settings m nps).map Prod.fst).Nodup := by
  induction nps with
  | nil => intro m h; exact h
  | cons p nps ih =>
    intro m h
    exact ih _ (insert_bssids_nodup _ m p h)

/-- Processing profiles none of which list `β` leaves the entries of `β`
unchanged. -/
theorem getEntry_insert_profiles_not_mem (get_settings : String → Option NMSettingsMap)
    (nps : List String) :
    ∀ (m : List (String × String)) (β : String),
      (∀ q ∈ nps, β ∉ (wifi_bssids get_settings q).getD []) →
      getEntry (insert_profiles get_settings m nps) β = getEntry m β := by
  induction nps with
  | nil => intros; rfl
  | cons p nps ih =>
    intro m β h
    show getEntry (insert_profiles get_settings
      (insert_bssids m p ((wifi_bssids get_settings p).getD [])) nps) β = _
    rw [ih _ β fun q hq => h q (List.mem_cons_of_mem p hq),
      getEntry_insert_bssids_not_mem _ m p β (h p (List.mem_cons_self p nps))]

/-- C9: when a profile `p` lists BSSID `β` and no later profile lists it, the
index built by `wifi_profiles` holds exactly one binding for `β`, namely to
`p` (the profile processed last for that BSSID), and the whole index has
duplicate-free keys — insertion overwrites rather than erroring. -/
theorem wifi_profiles_last_wins
    (get_settings : String → Option NMSettingsMap)
    (l₁ l₂ : List String) (p β : String) (m : List (String × String))
    (hp : β ∈ (wifi_bssids get_settings p).getD [])
    (hl₂ : ∀ q ∈ l₂, β ∉ (wifi_bssids get_settings q).getD [])
    (hm : wifi_profiles (some (l₁ ++ p :: l₂)) get_settings = some m) :
    getEntry m β = [(β, p)] ∧ (m.map Prod.fst).Nodup := by
  have hm' : m = insert_profiles get_settings [] (l₁ ++ p :: l₂) := by
    simpa [wifi_profiles] using hm.symm
  subst hm'
  have hsplit : insert_profiles get_settings [] (l₁ ++ p :: l₂) =
      insert_profiles get_settings
        (insert_bssids (insert_profiles get_settings [] l₁) p
          ((wifi_bssids get_settings p).getD []))
        l₂ := by
    unfold insert_profiles
    rw [List.foldl_append]
    rfl
  have hnd₁ : ((insert_profiles get_settings [] l₁).map Prod.fst).Nodup :=
    insert_profiles_nodup get_settings l₁ [] (by simp)
  rw [hsplit]
  constructor
  · rw [getEntry_insert_profiles_not_mem get_settings l₂ _ β hl₂]
    exact getEntry_insert_bssids_mem _ _ p β hp hnd₁
  · exact insert_profiles_nodup get_settings l₂ _ (insert_bssids_nodup _ _ p hnd₁)

/-- Two saved profiles whose settings both list the BSSID
`AA:BB:CC:DD:EE:FF`. -/
def profiles_world : String → Option NMSettingsMap := fun path =>
  if path = "/settings/1" then
    some [("802-11-wireless",
      [("seen-bssids", NMValue.arr [NMValue.str "AA:BB:CC:DD:EE:FF"])])]
  else if path = "/settings/2" then
    some [("802-11-wireless",
      [("seen-bssids", NMValue.arr
        [NMValue.str "AA:BB:CC:DD:EE:FF", NMValue.str "11:22:33:44:55:66"])])]
  else none

/-- The index the two colliding profiles produce: the shared BSSID maps to the
profile processed last. -/
def last_wins_map : List (String × String) :=
  [("AA:BB:CC:DD:EE:FF", "/settings/2"), ("11:22:33:44:55:66", "/settings/2")]

/-- Witness for C9, at two profiles claiming the same BSSID. -/
theorem wifi_profiles_last_wins_witness :
    getEntry last_wins_map "AA:BB:CC:DD:EE:FF" =
      [("AA:BB:CC:DD:EE:FF", "/settings/2")] ∧
    (last_wins_map.map Prod.fst).Nodup :=
  wifi_profiles_last_wins profiles_world ["/settings/1"] [] "/settings/2"
    "AA:BB:CC:DD:EE:FF" last_wins_map (by decide)
    (fun q hq => absurd hq (List.not_mem_nil q)) (by decide)

/-- The comparator relation spelled out: `apLE a b` holds exactly when `a`
precedes-or-ties `b` in the (connected descending, strength descending)
lexicographic order. -/
theorem apLE_iff (a b : AccessPoint) :
    apLE a b ↔ (a.connected = true ∧ b.connected = false) ∨
      (a.connected = b.connected ∧ b.strength ≤ a.strength) := by
  unfold apLE apCmp boolCmp natCmp
  rcases ha : a.connected <;> rcases hb : b.connected <;> simp [ha, hb] <;> omega

instance : IsTotal AccessPoint apLE := ⟨by
  intro a b
  rw [apLE_iff, apLE_iff]
  rcases ha : a.connected <;> rcases hb : b.connected <;> simp [ha, hb] <;> omega⟩

instance : IsTrans AccessPoint apLE := ⟨by
  intro a b c hab hbc
  rw [apLE_iff] at hab hbc ⊢
  rcases ha : a.connected <;> rcases hb : b.connected <;> rcases hc : c.connected <;>
    simp_all <;> omega⟩

/-- A list of access points whose connected members all carry the single
active BSSID, with duplicate-free BSSIDs, has at most one connected member. -/
theorem connected_at_most_one (l : List AccessPoint) (s : Option String)
    (hconn : ∀ a ∈ l, a.connected = true → s = some a.bssid)
    (hnd : (l.map AccessPoint.bssid).Nodup) :
    (l.filter fun a => a.connected).length ≤ 1 := by
  induction l with
  | nil => simp
  | cons a t ih =>
    rw [List.map_cons] at hnd
    have hnd' := List.nodup_cons.mp hnd
    by_cases hc : a.connected = true
    · have htnone : ∀ b ∈ t, ¬(b.connected = true) := by
        intro b hb hbc
        have h1 := hconn a (List.mem_cons_self a t) hc
        have h2 := hconn b (List.mem_cons_of_mem a hb) hbc
        rw [h1] at h2
        have hbs : a.bssid = b.bssid := Option.some.inj h2
        exact hnd'.1 (by rw [hbs]; exact List.mem_map_of_mem AccessPoint.bssid hb)
      have ht : t.filter (fun a => a.connected) = [] :=
        List.filter_eq_nil_iff.mpr htnone
      simp [List.filter_cons, hc, ht]
    · have ht := ih (fun b hb hbc => hconn b (List.mem_cons_of_mem a hb) hbc) hnd'.2
      simpa [List.filter_cons, hc] using ht

/-- C1: every snapshot the access-point query returns has at most one entry
with `connected = true` (given BSSIDs are unique within the scan result set),
and is sorted by connected descending first, then strength descending. -/
theorem access_points_sorted_unique
    (world : APWorld) (device : Option WirelessDeviceState)
    (result : List AccessPoint)
    (hq : access_points world device = some result)
    (hnd : (result.map AccessPoint.bssid).Nodup) :
    (result.filter fun a => a.connected).length ≤ 1 ∧
    result.Pairwise (fun a b =>
      (a.connected = true ∧ b.connected = false) ∨
      (a.connected = b.connected ∧ b.strength ≤ a.strength)) := by
  cases device with
  | none =>
    have hres : result = [] := by simpa [access_points] using hq.symm
    subst hres
    simp
  | some device =>
    rcases haps : device.accessPoints with _ | aps
    · simp [access_points, haps] at hq
    · have hres : result =
          List.insertionSort apLE
            (aps.filterMap fun p => from_nm_ap world p (active_bssid world device)) := by
        have hq2 := hq
        simp only [access_points, haps, Option.map, Option.some.injEq] at hq2
        exact hq2.symm
      subst hres
      constructor
      · refine connected_at_most_one _ (active_bssid world device) ?_ hnd
        intro a ha hconn
        have ha2 := (List.perm_insertionSort apLE _).mem_iff.mp ha
        obtain ⟨p, _, hfp⟩ := List.mem_filterMap.mp ha2
        exact from_nm_ap_connected hfp hconn
      · have hs : List.Pairwise apLE
            (List.insertionSort apLE
              (aps.filterMap fun p => from_nm_ap world p (active_bssid world device))) :=
          List.sorted_insertionSort apLE _
        exact hs.imp fun hab => (apLE_iff _ _).mp hab

/-- Three visible APs with strengths 40/90/90, the second 90 being the
currently active one. -/
def scenario_world : APWorld := fun path =>
  if path = "/ap/a" then
    some { ssid := some [65], rawFlags := some 1, strength := some 40,
           frequency := some 2412, hwAddress := some "B1" }
  else if path = "/ap/b" then
    some { ssid := some [66], rawFlags := some 0, strength := some 90,
           frequency := some 5180, hwAddress := some "B2" }
  else if path = "/ap/c" then
    some { ssid := some [67], rawFlags := some 1, strength := some 90,
           frequency := some 2412, hwAddress := some "B3" }
  else none

/-- The device listing the three scenario APs with `/ap/c` active. -/
def scenario_device : WirelessDeviceState :=
  { activeAccessPoint := some "/ap/c",
    accessPoints := some ["/ap/a", "/ap/b", "/ap/c"] }

/-- The snapshot the scenario produces: connected-90 first, other-90, then 40. -/
def scenario_result : List AccessPoint :=
  [{ bssid := "B3", ssid := "C", strength := 90, «private» := true,
     frequency := 2412, connected := true, path := "/ap/c" },
   { bssid := "B2", ssid := "B", strength := 90, «private» := false,
     frequency := 5180, connected := false, path := "/ap/b" },
   { bssid := "B1", ssid := "A", strength := 40, «private» := true,
     frequency := 2412, connected := false, path := "/ap/a" }]

/-- Witness for C1, at the 40/90/90 scenario with one 90 connected. -/
theorem access_points_sorted_unique_witness :
    (scenario_result.filter fun a => a.connected).length ≤ 1 ∧
    scenario_result.Pairwise (fun a b =>
      (a.connected = true ∧ b.connected = false) ∨
      (a.connected = b.connected ∧ b.strength ≤ a.strength)) :=
  access_points_sorted_unique scenario_world (some scenario_device) scenario_result
    (by decide) (by decide)

end Settings
